import Mathlib

/-!
Verification of the OpenSCAP XCCDF policy-evaluation core against its
specification.

The repository ships the public interface of the XCCDF policy engine
(src/src/XCCDF_POLICY/public/xccdf_policy.h) and the OVAL file probe
source (probe_main and its helpers).  The policy-engine implementation
itself (bodies of xccdf_test_result_resolve_and_operation,
xccdf_policy_evaluate, selection resolution, scoring) is not part of the
sources, so those operations are modelled from the specification text;
each such definition carries a doc comment starting with
`Modelled from the spec:`.  The file probe (probe_main) is present in
full and is embedded directly from its source.
-/

/-- The nine XCCDF per-rule outcome values (xccdf_test_result_type_t),
in the order of the standard outcome set used throughout the spec:
PASS, FAIL, ERROR, UNKNOWN, NOT_APPLICABLE, NOT_CHECKED, NOT_SELECTED,
INFORMATIONAL, FIXED. -/
inductive xccdf_test_result_type_t where
  | PASS
  | FAIL
  | ERROR
  | UNKNOWN
  | NOT_APPLICABLE
  | NOT_CHECKED
  | NOT_SELECTED
  | INFORMATIONAL
  | FIXED
deriving DecidableEq, Repr, Fintype

/-- Modelled from the spec: the AND result-combination operation
(declared in the header as xccdf_test_result_resolve_and_operation; its
body is not among the sources).  Spec section 4.4 requires the
implementer to encode the full 9x9 truth-table matrix, with cells given
by the rule chain: ERROR dominates, then UNKNOWN, then NOT_CHECKED,
then NOT_APPLICABLE when both inputs are NOT_APPLICABLE (otherwise the
defined input is kept), then FAIL, else PASS.  The matrix below encodes
all 81 cells explicitly. -/
def xccdf_test_result_resolve_and_operation :
    xccdf_test_result_type_t → xccdf_test_result_type_t → xccdf_test_result_type_t
  | .PASS, .PASS => .PASS
  | .PASS, .FAIL => .FAIL
  | .PASS, .ERROR => .ERROR
  | .PASS, .UNKNOWN => .UNKNOWN
  | .PASS, .NOT_APPLICABLE => .PASS
  | .PASS, .NOT_CHECKED => .NOT_CHECKED
  | .PASS, .NOT_SELECTED => .PASS
  | .PASS, .INFORMATIONAL => .PASS
  | .PASS, .FIXED => .PASS
  | .FAIL, .PASS => .FAIL
  | .FAIL, .FAIL => .FAIL
  | .FAIL, .ERROR => .ERROR
  | .FAIL, .UNKNOWN => .UNKNOWN
  | .FAIL, .NOT_APPLICABLE => .FAIL
  | .FAIL, .NOT_CHECKED => .NOT_CHECKED
  | .FAIL, .NOT_SELECTED => .FAIL
  | .FAIL, .INFORMATIONAL => .FAIL
  | .FAIL, .FIXED => .FAIL
  | .ERROR, .PASS => .ERROR
  | .ERROR, .FAIL => .ERROR
  | .ERROR, .ERROR => .ERROR
  | .ERROR, .UNKNOWN => .ERROR
  | .ERROR, .NOT_APPLICABLE => .ERROR
  | .ERROR, .NOT_CHECKED => .ERROR
  | .ERROR, .NOT_SELECTED => .ERROR
  | .ERROR, .INFORMATIONAL => .ERROR
  | .ERROR, .FIXED => .ERROR
  | .UNKNOWN, .PASS => .UNKNOWN
  | .UNKNOWN, .FAIL => .UNKNOWN
  | .UNKNOWN, .ERROR => .ERROR
  | .UNKNOWN, .UNKNOWN => .UNKNOWN
  | .UNKNOWN, .NOT_APPLICABLE => .UNKNOWN
  | .UNKNOWN, .NOT_CHECKED => .UNKNOWN
  | .UNKNOWN, .NOT_SELECTED => .UNKNOWN
  | .UNKNOWN, .INFORMATIONAL => .UNKNOWN
  | .UNKNOWN, .FIXED => .UNKNOWN
  | .NOT_APPLICABLE, .PASS => .PASS
  | .NOT_APPLICABLE, .FAIL => .FAIL
  | .NOT_APPLICABLE, .ERROR => .ERROR
  | .NOT_APPLICABLE, .UNKNOWN => .UNKNOWN
  | .NOT_APPLICABLE, .NOT_APPLICABLE => .NOT_APPLICABLE
  | .NOT_APPLICABLE, .NOT_CHECKED => .NOT_CHECKED
  | .NOT_APPLICABLE, .NOT_SELECTED => .PASS
  | .NOT_APPLICABLE, .INFORMATIONAL => .PASS
  | .NOT_APPLICABLE, .FIXED => .PASS
  | .NOT_CHECKED, .PASS => .NOT_CHECKED
  | .NOT_CHECKED, .FAIL => .NOT_CHECKED
  | .NOT_CHECKED, .ERROR => .ERROR
  | .NOT_CHECKED, .UNKNOWN => .UNKNOWN
  | .NOT_CHECKED, .NOT_APPLICABLE => .NOT_CHECKED
  | .NOT_CHECKED, .NOT_CHECKED => .NOT_CHECKED
  | .NOT_CHECKED, .NOT_SELECTED => .NOT_CHECKED
  | .NOT_CHECKED, .INFORMATIONAL => .NOT_CHECKED
  | .NOT_CHECKED, .FIXED => .NOT_CHECKED
  | .NOT_SELECTED, .PASS => .PASS
  | .NOT_SELECTED, .FAIL => .FAIL
  | .NOT_SELECTED, .ERROR => .ERROR
  | .NOT_SELECTED, .UNKNOWN => .UNKNOWN
  | .NOT_SELECTED, .NOT_APPLICABLE => .PASS
  | .NOT_SELECTED, .NOT_CHECKED => .NOT_CHECKED
  | .NOT_SELECTED, .NOT_SELECTED => .PASS
  | .NOT_SELECTED, .INFORMATIONAL => .PASS
  | .NOT_SELECTED, .FIXED => .PASS
  | .INFORMATIONAL, .PASS => .PASS
  | .INFORMATIONAL, .FAIL => .FAIL
  | .INFORMATIONAL, .ERROR => .ERROR
  | .INFORMATIONAL, .UNKNOWN => .UNKNOWN
  | .INFORMATIONAL, .NOT_APPLICABLE => .PASS
  | .INFORMATIONAL, .NOT_CHECKED => .NOT_CHECKED
  | .INFORMATIONAL, .NOT_SELECTED => .PASS
  | .INFORMATIONAL, .INFORMATIONAL => .PASS
  | .INFORMATIONAL, .FIXED => .PASS
  | .FIXED, .PASS => .PASS
  | .FIXED, .FAIL => .FAIL
  | .FIXED, .ERROR => .ERROR
  | .FIXED, .UNKNOWN => .UNKNOWN
  | .FIXED, .NOT_APPLICABLE => .PASS
  | .FIXED, .NOT_CHECKED => .NOT_CHECKED
  | .FIXED, .NOT_SELECTED => .PASS
  | .FIXED, .INFORMATIONAL => .PASS
  | .FIXED, .FIXED => .PASS

/-- The AND combination rule exactly as the claim states it, as a chain
of conditions: ERROR if either input is ERROR; else UNKNOWN if either is
UNKNOWN; else NOT_CHECKED if either is NOT_CHECKED; else NOT_APPLICABLE
only if both are NOT_APPLICABLE; else FAIL if either is FAIL; else PASS.
Kept separate from the matrix so the two presentations check each
other. -/
def and_operation_rule_description
    (A B : xccdf_test_result_type_t) : xccdf_test_result_type_t :=
  if A = .ERROR ∨ B = .ERROR then .ERROR
  else if A = .UNKNOWN ∨ B = .UNKNOWN then .UNKNOWN
  else if A = .NOT_CHECKED ∨ B = .NOT_CHECKED then .NOT_CHECKED
  else if A = .NOT_APPLICABLE ∧ B = .NOT_APPLICABLE then .NOT_APPLICABLE
  else if A = .FAIL ∨ B = .FAIL then .FAIL
  else .PASS

/-- Modelled from the spec: the OR result-combination operation (the
dual table of spec section 4.4; no implementation is among the sources).
PASS dominates; ERROR and UNKNOWN still dominate over definite answers
when no PASS is present; the remaining chain mirrors the AND table. -/
def xccdf_test_result_resolve_or_operation
    (A B : xccdf_test_result_type_t) : xccdf_test_result_type_t :=
  if A = .PASS ∨ B = .PASS then .PASS
  else if A = .ERROR ∨ B = .ERROR then .ERROR
  else if A = .UNKNOWN ∨ B = .UNKNOWN then .UNKNOWN
  else if A = .NOT_CHECKED ∨ B = .NOT_CHECKED then .NOT_CHECKED
  else if A = .NOT_APPLICABLE ∧ B = .NOT_APPLICABLE then .NOT_APPLICABLE
  else if A = .FAIL ∨ B = .FAIL then .FAIL
  else .PASS

/-- C1: over the full 9-element outcome set, the AND combination matrix
returns exactly what the claimed rule chain prescribes: ERROR if either
input is ERROR; else UNKNOWN if either is UNKNOWN; else NOT_CHECKED if
either is NOT_CHECKED; else NOT_APPLICABLE only if both inputs are
NOT_APPLICABLE (NOT_APPLICABLE with PASS or FAIL yields the defined
input); else FAIL if either is FAIL; else PASS. -/
theorem and_operation_matches_rule_description :
    ∀ A B : xccdf_test_result_type_t,
      xccdf_test_result_resolve_and_operation A B =
        and_operation_rule_description A B := by decide

/-- C2: both the AND combination and the OR combination are commutative
over the full 9-element outcome set. -/
theorem and_or_operations_commutative :
    ∀ A B : xccdf_test_result_type_t,
      xccdf_test_result_resolve_and_operation A B =
          xccdf_test_result_resolve_and_operation B A ∧
        xccdf_test_result_resolve_or_operation A B =
          xccdf_test_result_resolve_or_operation B A := by decide

/-- A single xccdf check under a rule: the checking-system URI it
references and the content reference handed to the engine. -/
structure xccdf_check where
  system : String
  content_ref : String
deriving DecidableEq, Repr

/-- The complex-check combination operator a rule declares over its
checks (spec section 4.3: AND across required systems, OR across
redundant checks). -/
inductive xccdf_check_operator where
  | AND
  | OR
deriving DecidableEq, Repr

/-- The attributes of one xccdf rule node that the policy engine reads:
id, declared default selected flag, check combination operator, checks,
and scoring weight (default 1.0). -/
structure xccdf_rule_data where
  id : String
  selected : Bool
  check_op : xccdf_check_operator
  checks : List xccdf_check
  weight : ℚ
deriving DecidableEq, Repr

mutual
/-- The benchmark item tree consumed by the policy engine (spec
section 3): group and rule nodes, each with an id and a declared
default selected attribute; groups carry children. -/
inductive xccdf_item where
  | rule (r : xccdf_rule_data)
  | group (id : String) (selected : Bool) (children : xccdf_items)
deriving DecidableEq, Repr
/-- A list of benchmark items, as its own inductive so that the tree
traversals below are structural recursions. -/
inductive xccdf_items where
  | nil
  | cons (head : xccdf_item) (tail : xccdf_items)
deriving DecidableEq, Repr
end

/-- A profile: the select entries (item id, selected flag) and the
refine-rule weight overrides (item id, weight) it carries. -/
structure xccdf_profile where
  selects : List (String × Bool)
  refine_rules : List (String × ℚ)
deriving DecidableEq, Repr

/-- Look up the profile select entry for an item id; the last entry in
profile document order wins (spec section 4.1). -/
def xccdf_select_lookup (profile : xccdf_profile) (id : String) : Option Bool :=
  (profile.selects.reverse.find? (fun p => p.fst = id)).map Prod.snd

/-- Look up the profile refine-rule weight override for an item id; the
last entry in profile document order wins. -/
def xccdf_refine_lookup (profile : xccdf_profile) (id : String) : Option ℚ :=
  (profile.refine_rules.reverse.find? (fun p => p.fst = id)).map Prod.snd

/-- The effective selected flag of a group node: the profile select for
its exact id when present, else its own declared default gated by the
ancestor-derived flag (spec section 4.2). -/
def xccdf_effective_group (profile : xccdf_profile) (anc : Bool)
    (id : String) (selected : Bool) : Bool :=
  match xccdf_select_lookup profile id with
  | some v => v
  | none => anc && selected

mutual
/-- Modelled from the spec: the selection resolver of spec section 4.2
(the implementation behind the header's xccdf_policy_get_selected_rules
is not among the sources), returning the resolved rules themselves in
document order.  A rule with a profile select for its exact id is
included exactly per that select, overriding ancestor-derived
exclusion; otherwise it is included when its own default flag and every
ancestor gate are true. -/
def xccdf_policy_resolve_rules (profile : xccdf_profile) (anc : Bool) :
    xccdf_item → List xccdf_rule_data
  | .rule r =>
      match xccdf_select_lookup profile r.id with
      | some v => if v then [r] else []
      | none => if anc && r.selected then [r] else []
  | .group id sel children =>
      xccdf_policy_resolve_rules_list profile
        (xccdf_effective_group profile anc id sel) children
/-- Selection resolution over a list of sibling items, concatenated in
document order. -/
def xccdf_policy_resolve_rules_list (profile : xccdf_profile) (anc : Bool) :
    xccdf_items → List xccdf_rule_data
  | .nil => []
  | .cons c cs =>
      xccdf_policy_resolve_rules profile anc c ++
        xccdf_policy_resolve_rules_list profile anc cs
end

mutual
/-- Modelled from the spec: the resolved selection set as a flattened
ordered list of directly selected rule ids (spec section 4.2), computed
by its own traversal of the tree. -/
def xccdf_policy_get_selected_rules (profile : xccdf_profile) (anc : Bool) :
    xccdf_item → List String
  | .rule r =>
      match xccdf_select_lookup profile r.id with
      | some v => if v then [r.id] else []
      | none => if anc && r.selected then [r.id] else []
  | .group id sel children =>
      xccdf_policy_get_selected_rules_list profile
        (xccdf_effective_group profile anc id sel) children
/-- Selected rule ids over a list of sibling items. -/
def xccdf_policy_get_selected_rules_list (profile : xccdf_profile) (anc : Bool) :
    xccdf_items → List String
  | .nil => []
  | .cons c cs =>
      xccdf_policy_get_selected_rules profile anc c ++
        xccdf_policy_get_selected_rules_list profile anc cs
end

/-- What a registered engine callback reports for one check: an outcome
from the result set, or a fatal engine error signal. -/
inductive engine_result where
  | outcome (r : xccdf_test_result_type_t)
  | fatal_error
deriving Repr

/-- One engine registration (spec section 3, EngineBinding): the
check-system URI it serves and its eval callback, here a function from
the content reference to the reported result. -/
structure engine_binding where
  system : String
  eval_fn : String → engine_result

/-- The engine registry: registrations in registration order. -/
abbrev engine_registry : Type := List engine_binding

/-- Register an engine callback for a checking system (header function
xccdf_policy_model_register_engine_callback): the binding is appended;
a later registration for the same URI wins on lookup. -/
def xccdf_policy_model_register_engine_callback
    (registry : engine_registry) (b : engine_binding) : engine_registry :=
  registry ++ [b]

/-- Look up the engine registered for a check-system URI; the last
registration wins (spec section 3: last-writer-wins). -/
def xccdf_lookup_engine (registry : engine_registry) (sys : String) :
    Option engine_binding :=
  registry.reverse.find? (fun b => b.system = sys)

/-- Modelled from the spec: evaluating one check (spec section 4.3): no
engine registered for the check's system URI gives NOT_CHECKED; a
callback reporting a fatal engine error gives ERROR; otherwise the
callback's outcome is taken. -/
def xccdf_policy_eval_check (registry : engine_registry)
    (c : xccdf_check) : xccdf_test_result_type_t :=
  match xccdf_lookup_engine registry c.system with
  | none => .NOT_CHECKED
  | some b =>
      match b.eval_fn c.content_ref with
      | .outcome r => r
      | .fatal_error => .ERROR

/-- Fold a list of check outcomes with the rule's declared combination
operator, left to right (spec section 4.4); a rule with no checks is
NOT_CHECKED. -/
def xccdf_combine_outcomes (op : xccdf_check_operator) :
    List xccdf_test_result_type_t → xccdf_test_result_type_t
  | [] => .NOT_CHECKED
  | o :: os =>
      os.foldl
        (fun a b =>
          match op with
          | .AND => xccdf_test_result_resolve_and_operation a b
          | .OR => xccdf_test_result_resolve_or_operation a b) o

/-- Modelled from the spec: the combined outcome of one rule, folding
the outcomes of all its checks with its declared operator. -/
def xccdf_policy_eval_rule (registry : engine_registry)
    (r : xccdf_rule_data) : xccdf_test_result_type_t :=
  xccdf_combine_outcomes r.check_op
    (r.checks.map (xccdf_policy_eval_check registry))

/-- Modelled from the spec: the evaluation loop of
xccdf_policy_evaluate (spec section 4.3; the header declares it, the
body is not among the sources).  Each rule of the resolved selection,
in resolved order, is dispatched and its combined outcome recorded;
the produced Result is the list of (rule id, outcome) leaf entries. -/
def xccdf_policy_evaluate (registry : engine_registry)
    (profile : xccdf_profile) (benchmark : xccdf_item) :
    List (String × xccdf_test_result_type_t) :=
  (xccdf_policy_resolve_rules profile true benchmark).map
    (fun r => (r.id, xccdf_policy_eval_rule registry r))

/-- One leaf entry of a Result as the Scorer reads it: rule id, the
recorded outcome, and the rule's declared weight. -/
structure xccdf_rule_result where
  id : String
  outcome : xccdf_test_result_type_t
  weight : ℚ
deriving DecidableEq, Repr

/-- Whether an outcome makes its rule applicable for scoring (spec
section 4.5): PASS and FIXED contribute to value and maximum,
FAIL, ERROR and UNKNOWN contribute to the maximum only; NOT_APPLICABLE,
NOT_SELECTED, NOT_CHECKED and INFORMATIONAL are excluded entirely. -/
def xccdf_score_applicable (o : xccdf_test_result_type_t) : Bool :=
  match o with
  | .PASS | .FAIL | .ERROR | .UNKNOWN | .FIXED => true
  | _ => false

/-- Whether an outcome contributes full weight to the score value:
PASS, with FIXED counting as PASS (spec section 4.5). -/
def xccdf_score_counts_as_pass (o : xccdf_test_result_type_t) : Bool :=
  match o with
  | .PASS | .FIXED => true
  | _ => false

/-- A computed XCCDF score: value and maximum possible score. -/
structure xccdf_score where
  value : ℚ
  maxScore : ℚ
deriving DecidableEq, Repr

/-- The outcome of asking the Scorer for a score: a score, or the
NoApplicableRules failure carrying the zero score (spec section 4.5). -/
inductive score_result where
  | ok (s : xccdf_score)
  | noApplicableRules (s : xccdf_score)
deriving DecidableEq, Repr

/-- Modelled from the spec: the Scorer of spec section 4.5 (the header
declares xccdf_policy_get_score; the body is not among the sources),
over the Result leaf entries in scope.  Under the flat system every
weight is 1, the maximum is normalized to 100, and an empty applicable
set fails with NoApplicableRules (value 0, maximum 0) instead of
dividing by zero; under the default system the weighted sums are
returned unnormalized. -/
def xccdf_policy_get_score (results : List xccdf_rule_result)
    (system : String) : score_result :=
  let appl := results.filter (fun r => xccdf_score_applicable r.outcome)
  if system = "flat" then
    if appl.length = 0 then
      score_result.noApplicableRules ⟨0, 0⟩
    else
      let passed := appl.filter (fun r => xccdf_score_counts_as_pass r.outcome)
      score_result.ok
        ⟨100 * (passed.length : ℚ) / (appl.length : ℚ), 100⟩
  else
    score_result.ok
      ⟨((appl.filter (fun r => xccdf_score_counts_as_pass r.outcome)).map
          (fun r => r.weight)).sum,
        (appl.map (fun r => r.weight)).sum⟩

/-- Policy evaluation state: the benchmark tree owned by the policy
model, and the append-only history of Results the policy accumulates
(spec section 3). -/
structure xccdf_policy_state where
  benchmark : xccdf_item
  results : List (List (String × xccdf_test_result_type_t))
deriving Repr

mutual
/-- Modelled from the spec: the resolve transform on one item
(xccdf_policy_resolve in the header; spec sections 4.2 and 9): it bakes
the profile's refine-rule overrides into the tree's own rule
attributes, here the rule weight, producing the changed tree. -/
def xccdf_policy_resolve_item (profile : xccdf_profile) :
    xccdf_item → xccdf_item
  | .rule r =>
      .rule { r with weight := (xccdf_refine_lookup profile r.id).getD r.weight }
  | .group id sel children =>
      .group id sel (xccdf_policy_resolve_item_list profile children)
/-- Resolve over a list of sibling items. -/
def xccdf_policy_resolve_item_list (profile : xccdf_profile) :
    xccdf_items → xccdf_items
  | .nil => .nil
  | .cons c cs =>
      .cons (xccdf_policy_resolve_item profile c)
        (xccdf_policy_resolve_item_list profile cs)
end

/-- Modelled from the spec: xccdf_policy_resolve applied to the policy
state: the benchmark tree itself is replaced by its resolved form. -/
def xccdf_policy_resolve (profile : xccdf_profile)
    (st : xccdf_policy_state) : xccdf_policy_state :=
  { st with benchmark := xccdf_policy_resolve_item profile st.benchmark }

/-- Modelled from the spec: xccdf_policy_tailor_item clones the given
item and tailors it against the profile, returning the new item; the
input item is not touched. -/
def xccdf_policy_tailor_item (profile : xccdf_profile)
    (item : xccdf_item) : xccdf_item :=
  xccdf_policy_resolve_item profile item

/-- Modelled from the spec: evaluation against the policy state.  The
produced Result is appended to the policy's result history; the
benchmark tree is only read (spec sections 4.2 and 5). -/
def xccdf_policy_evaluate_state (registry : engine_registry)
    (profile : xccdf_profile) (st : xccdf_policy_state) :
    xccdf_policy_state × List (String × xccdf_test_result_type_t) :=
  let res := xccdf_policy_evaluate registry profile st.benchmark
  ({ st with results := st.results ++ [res] }, res)

/-- The probe error codes written through the err out-parameter of
probe_main; ok models err being set to 0. -/
inductive probe_errcode where
  | ok
  | PROBE_EINIT
  | PROBE_ENOELM
  | PROBE_EFATAL
deriving DecidableEq, Repr

/-- OVAL item status values relevant to the file probe; probe_main
marks its synthetic error item with OVAL_STATUS_ERROR. -/
inductive oval_status where
  | OVAL_STATUS_ERROR
  | OVAL_STATUS_EXISTS
deriving DecidableEq, Repr

/-- The observable content of an item S-expression built by the file
probe: the item name, the value of its path entity when present, and
the status set through probe_item_setstatus when one was set. -/
structure sexp_item where
  item_name : String
  path_ent : Option String
  status : Option oval_status
deriving DecidableEq, Repr

/-- The behaviors entity of a file object: the four attributes
probe_main fills with defaults when absent. -/
structure file_behaviors where
  max_depth : Option String
  recurse : Option String
  recurse_direction : Option String
  recurse_file_system : Option String
deriving DecidableEq, Repr

/-- The input object of probe_main as probe_obj_getent reads it: the
optional path, filename and behaviors entities. -/
structure probe_obj where
  path : Option String
  filename : Option String
  behaviors : Option file_behaviors
deriving DecidableEq, Repr

/-- The mutex argument handed to probe_main: NULL, or the pointer to
the probe's global __file_probe_mutex. -/
inductive mutex_arg where
  | null
  | file_probe_mutex
deriving DecidableEq, Repr

/-- The environment probe_main runs against: the mutex argument,
whether pthread_mutex_lock or pthread_mutex_unlock on the global mutex
fails, and the behaviour of the external find_files traversal (its
return count and the items its callback collected). -/
structure probe_env where
  mutex : mutex_arg
  lock_fails : Bool
  unlock_fails : Bool
  find_files_ret : Int
  found_items : List sexp_item
deriving DecidableEq, Repr

/-- The observable output of one probe_main call: the returned item
list (none models a NULL return), the error code written through err,
and the names of the input entities released with SEXP_free before
returning. -/
structure probe_out where
  ret : Option (List sexp_item)
  err : probe_errcode
  freed : List String
deriving DecidableEq, Repr

/-- Fill the behaviors entity with the probe's defaults for every
absent attribute, exactly as probe_main does before calling
find_files. -/
def fill_behaviors : Option file_behaviors → file_behaviors
  | none =>
      { max_depth := some "-1", recurse := some "symlinks and directories",
        recurse_direction := some "none", recurse_file_system := some "all" }
  | some b =>
      { max_depth := some (b.max_depth.getD "-1"),
        recurse := some (b.recurse.getD "symlinks and directories"),
        recurse_direction := some (b.recurse_direction.getD "none"),
        recurse_file_system := some (b.recurse_file_system.getD "all") }

/-- The entity names probe_main releases on the missing-entity exit
path: SEXP_free is applied to behaviors, path and filename in that
order, and freeing an entity that was not obtained (NULL) is a
no-op. -/
def obtained_entities (o : probe_obj) : List String :=
  (if o.behaviors.isSome then ["behaviors"] else []) ++
    (if o.path.isSome then ["path"] else []) ++
    (if o.filename.isSome then ["filename"] else [])

/-- The synthetic item probe_main builds when find_files reports an
error: a file_item carrying only the path entity, with its status set
to OVAL_STATUS_ERROR. -/
def file_error_item (p : String) : sexp_item :=
  { item_name := "file_item", path_ent := some p,
    status := some oval_status.OVAL_STATUS_ERROR }

/-- The file probe entry point probe_main, embedded from its source.
A NULL mutex gives PROBE_EINIT with no items; a missing path or
filename entity gives PROBE_ENOELM, releases the obtained entities and
returns no items; a pthread_mutex_lock failure gives PROBE_EFATAL with
no items; otherwise err is set to 0 after find_files runs, a negative
find_files count is absorbed into a single file_item of status
OVAL_STATUS_ERROR, the three entities are released, and a
pthread_mutex_unlock failure still gives PROBE_EFATAL with no items;
in every remaining case the collected item list is returned.  The
external find_files traversal (findfile.h is not among the sources) is
represented by the environment's count and collected items. -/
def probe_main (env : probe_env) (probe_in : probe_obj) : probe_out :=
  if env.mutex = mutex_arg.null then
    { ret := none, err := probe_errcode.PROBE_EINIT, freed := [] }
  else
    match probe_in.path, probe_in.filename with
    | none, _ =>
        { ret := none, err := probe_errcode.PROBE_ENOELM,
          freed := obtained_entities probe_in }
    | some _, none =>
        { ret := none, err := probe_errcode.PROBE_ENOELM,
          freed := obtained_entities probe_in }
    | some p, some _ =>
        let _behaviors := fill_behaviors probe_in.behaviors
        if env.lock_fails then
          { ret := none, err := probe_errcode.PROBE_EFATAL, freed := [] }
        else
          let items :=
            if env.find_files_ret < 0 then [file_error_item p]
            else env.found_items
          if env.unlock_fails then
            { ret := none, err := probe_errcode.PROBE_EFATAL,
              freed := ["behaviors", "path", "filename"] }
          else
            { ret := some items, err := probe_errcode.ok,
              freed := ["behaviors", "path", "filename"] }

/-- The complete item list probe_main is expected to hand back when it
returns a list at all: the single error item when find_files failed,
the collected items otherwise. -/
def probe_expected_items (env : probe_env) (probe_in : probe_obj) :
    List sexp_item :=
  match probe_in.path with
  | some p =>
      if env.find_files_ret < 0 then [file_error_item p]
      else env.found_items
  | none => []

mutual
/-- The two selection traversals agree: resolving rules and mapping to
their ids gives exactly the resolved selection id list, on one item. -/
theorem resolve_rules_map_id (profile : xccdf_profile) (anc : Bool) :
    ∀ it : xccdf_item,
      (xccdf_policy_resolve_rules profile anc it).map (fun r => r.id) =
        xccdf_policy_get_selected_rules profile anc it
  | .rule r => by
      cases hl : xccdf_select_lookup profile r.id with
      | none =>
          simp [xccdf_policy_resolve_rules, xccdf_policy_get_selected_rules,
            hl, apply_ite]
      | some v =>
          simp [xccdf_policy_resolve_rules, xccdf_policy_get_selected_rules,
            hl, apply_ite]
  | .group id sel children => by
      simp only [xccdf_policy_resolve_rules, xccdf_policy_get_selected_rules]
      exact resolve_rules_map_id_list profile
        (xccdf_effective_group profile anc id sel) children
/-- The two selection traversals agree on a list of sibling items. -/
theorem resolve_rules_map_id_list (profile : xccdf_profile) (anc : Bool) :
    ∀ its : xccdf_items,
      (xccdf_policy_resolve_rules_list profile anc its).map (fun r => r.id) =
        xccdf_policy_get_selected_rules_list profile anc its
  | .nil => by
      simp [xccdf_policy_resolve_rules_list,
        xccdf_policy_get_selected_rules_list]
  | .cons c cs => by
      simp only [xccdf_policy_resolve_rules_list,
        xccdf_policy_get_selected_rules_list, List.map_append]
      rw [resolve_rules_map_id profile anc c,
        resolve_rules_map_id_list profile anc cs]
end

/-- The concrete benchmark of the selection test fixture: group g1 with
default selected true containing rule r1 with default selected
false. -/
def c3_bench : xccdf_item :=
  .group "g1" true (.cons (.rule ⟨"r1", false, .AND, [], 1⟩) .nil)

/-- A profile that only deselects group g1. -/
def c3_profile_deselect_group : xccdf_profile := ⟨[("g1", false)], []⟩

/-- A profile that deselects group g1 and exact-selects rule r1. -/
def c3_profile_with_rule_select : xccdf_profile :=
  ⟨[("g1", false), ("r1", true)], []⟩

/-- C3: on the fixture benchmark (group g1 default selected, rule r1
default deselected under it), a profile with select(g1,false) resolves
to the empty selection, while adding select(r1,true) resolves to
exactly the rule r1: an exact-id select on a rule overrides exclusion
derived from a deselected ancestor group. -/
theorem exact_rule_select_overrides_group_deselection :
    xccdf_policy_get_selected_rules c3_profile_deselect_group true c3_bench
        = [] ∧
      xccdf_policy_get_selected_rules c3_profile_with_rule_select true c3_bench
        = ["r1"] := by decide

/-- C4: for every rule of the resolved selection whose only check
references a check-system URI with no registered engine, evaluation
records NOT_CHECKED for that rule (not ERROR), raises no failure, and
still produces an entry for every selected rule. -/
theorem unregistered_system_gives_not_checked
    (registry : engine_registry) (profile : xccdf_profile)
    (benchmark : xccdf_item) (r : xccdf_rule_data) (c : xccdf_check)
    (hr : r ∈ xccdf_policy_resolve_rules profile true benchmark)
    (hc : r.checks = [c])
    (hsys : xccdf_lookup_engine registry c.system = none) :
    (r.id, xccdf_test_result_type_t.NOT_CHECKED) ∈
        xccdf_policy_evaluate registry profile benchmark ∧
      (xccdf_policy_evaluate registry profile benchmark).length =
        (xccdf_policy_get_selected_rules profile true benchmark).length := by
  have heval : xccdf_policy_eval_rule registry r =
      xccdf_test_result_type_t.NOT_CHECKED := by
    simp [xccdf_policy_eval_rule, hc, xccdf_policy_eval_check, hsys,
      xccdf_combine_outcomes]
  constructor
  · have hmem := List.mem_map_of_mem
      (fun r => (r.id, xccdf_policy_eval_rule registry r)) hr
    simp only [heval] at hmem
    simpa [xccdf_policy_evaluate] using hmem
  · rw [← resolve_rules_map_id profile true benchmark]
    simp [xccdf_policy_evaluate]

/-- The check of the C4 witness fixture: an OVAL check against a system
URI for which no engine is registered. -/
def c4_check : xccdf_check :=
  ⟨"http://oval.mitre.org/XMLSchema/oval-definitions-5", "ref-1"⟩

/-- The rule of the C4 witness fixture: selected by default, with the
single check c4_check. -/
def c4_rule : xccdf_rule_data := ⟨"r1", true, .AND, [c4_check], 1⟩

/-- The benchmark of the C4 witness fixture. -/
def c4_bench : xccdf_item := .group "g1" true (.cons (.rule c4_rule) .nil)

/-- The empty profile of the C4 witness fixture. -/
def c4_profile : xccdf_profile := ⟨[], []⟩

/-- Witness for C4 at the concrete fixture with an empty engine
registry. -/
theorem unregistered_system_gives_not_checked_witness :
    (c4_rule ∈ xccdf_policy_resolve_rules c4_profile true c4_bench ∧
        c4_rule.checks = [c4_check] ∧
        xccdf_lookup_engine [] c4_check.system = none) ∧
      ((c4_rule.id, xccdf_test_result_type_t.NOT_CHECKED) ∈
          xccdf_policy_evaluate [] c4_profile c4_bench ∧
        (xccdf_policy_evaluate [] c4_profile c4_bench).length =
          (xccdf_policy_get_selected_rules c4_profile true c4_bench).length) :=
  ⟨⟨by decide, rfl, rfl⟩,
    unregistered_system_gives_not_checked [] c4_profile c4_bench c4_rule
      c4_check (by decide) rfl rfl⟩

/-- C5: the flat scoring system returns maximum 100 whenever at least
one applicable rule is in scope, and fails with NoApplicableRules
(value 0, maximum 0) when every rule in scope is excluded. -/
theorem flat_score_max_100_or_no_applicable_rules :
    ∀ results : List xccdf_rule_result,
      ((results.filter (fun r => xccdf_score_applicable r.outcome) ≠ []) →
        ∃ v, xccdf_policy_get_score results "flat" =
          score_result.ok ⟨v, 100⟩) ∧
      ((results.filter (fun r => xccdf_score_applicable r.outcome) = []) →
        xccdf_policy_get_score results "flat" =
          score_result.noApplicableRules ⟨0, 0⟩) := by
  intro results
  constructor
  · intro h
    have hlen :
        (results.filter (fun r => xccdf_score_applicable r.outcome)).length
          ≠ 0 := by
      simpa [List.length_eq_zero] using h
    refine ⟨100 *
        ((((results.filter (fun r => xccdf_score_applicable r.outcome)).filter
          (fun r => xccdf_score_counts_as_pass r.outcome)).length : ℚ)) /
        (((results.filter (fun r => xccdf_score_applicable r.outcome)).length :
          ℚ)), ?_⟩
    simp only [xccdf_policy_get_score]
    rw [if_pos trivial, if_neg hlen]
  · intro h
    simp [xccdf_policy_get_score, h]

/-- A single passing rule result used by the C5 witness. -/
def c5_result_pass : xccdf_rule_result := ⟨"r1", .PASS, 1⟩

/-- Witness for C5: one passing rule gives maximum 100; an empty result
set gives the NoApplicableRules failure with value 0 and maximum 0. -/
theorem flat_score_witness :
    (∃ v, xccdf_policy_get_score [c5_result_pass] "flat" =
        score_result.ok ⟨v, 100⟩) ∧
      xccdf_policy_get_score [] "flat" =
        score_result.noApplicableRules ⟨0, 0⟩ :=
  ⟨(flat_score_max_100_or_no_applicable_rules [c5_result_pass]).1 (by decide),
    (flat_score_max_100_or_no_applicable_rules []).2 rfl⟩

/-- C6: the Result produced by evaluation carries exactly the rule ids
of the resolved selection set as its leaf entries, in resolved order:
no omissions and no extras. -/
theorem evaluate_result_ids_match_selection :
    ∀ (registry : engine_registry) (profile : xccdf_profile)
      (benchmark : xccdf_item),
      (xccdf_policy_evaluate registry profile benchmark).map Prod.fst =
        xccdf_policy_get_selected_rules profile true benchmark := by
  intro registry profile benchmark
  unfold xccdf_policy_evaluate
  rw [List.map_map]
  exact resolve_rules_map_id profile true benchmark

/-- The benchmark of the C8 fixture: group g1 containing rule r1 with
weight 1. -/
def c8_bench : xccdf_item :=
  .group "g1" true (.cons (.rule ⟨"r1", true, .AND, [], 1⟩) .nil)

/-- A benchmark differing from the C8 fixture only in the weight of
rule r1. -/
def c8_bench_variant : xccdf_item :=
  .group "g1" true (.cons (.rule ⟨"r1", true, .AND, [], 5⟩) .nil)

/-- The C8 profile: a refine-rule override setting the weight of r1 to
2. -/
def c8_profile : xccdf_profile := ⟨[], [("r1", 2)]⟩

/-- C8: tailored evaluation leaves the policy state's benchmark tree —
and with it every rule's own selected attribute — unchanged, for every
registry, profile and state; the explicit resolve operation is the one
that changes the tree, baking the profile's refine-rule override into
the rule attributes on the concrete fixture; and resolve is one-way:
two different trees collapse to the same resolved tree, so the baking
cannot be undone from the result. -/
theorem evaluation_preserves_tree_resolve_mutates :
    (∀ (registry : engine_registry) (profile : xccdf_profile)
        (st : xccdf_policy_state),
        ((xccdf_policy_evaluate_state registry profile st).1).benchmark =
          st.benchmark) ∧
      xccdf_policy_resolve_item c8_profile c8_bench ≠ c8_bench ∧
      (xccdf_policy_resolve_item c8_profile c8_bench_variant =
          xccdf_policy_resolve_item c8_profile c8_bench ∧
        c8_bench_variant ≠ c8_bench) :=
  ⟨fun _ _ _ => rfl, by decide, by decide, by decide⟩

/-- The probe environment of the C7 counterexample: a healthy mutex,
locking and unlocking both succeed. -/
def c7_env : probe_env := ⟨.file_probe_mutex, false, false, 0, []⟩

/-- The probe input of the C7 counterexample: the path entity is
missing while the filename entity is present. -/
def c7_obj_missing_path : probe_obj := ⟨none, some "file.txt", none⟩

/-- C7 counterexample: probe_main can return no item list even though
no mutex or resource acquisition failed — a well-formed mutex with
successful locking, given an input lacking its path entity, still
produces a NULL return (with the PROBE_ENOELM error code), refuting
that a complete Result is delivered in every case other than an
acquisition failure. -/
theorem probe_no_result_without_acquisition_failure :
    c7_env.mutex ≠ mutex_arg.null ∧ c7_env.lock_fails = false ∧
      (probe_main c7_env c7_obj_missing_path).ret = none := by decide

/-- C7 amended: probe_main returns no item list exactly when the mutex
argument is NULL, locking or unlocking the mutex fails, or the input
lacks its path or filename entity; the error code is 0 exactly when an
item list is returned; and any returned item list is the complete one —
the single error item when find_files failed, the collected items
otherwise — so partial results are never produced. -/
theorem probe_result_complete_or_hard_failure :
    ∀ (env : probe_env) (probe_in : probe_obj),
      ((probe_main env probe_in).ret = none ↔
        (env.mutex = mutex_arg.null ∨ env.lock_fails = true ∨
          env.unlock_fails = true ∨ probe_in.path = none ∨
          probe_in.filename = none)) ∧
      ((probe_main env probe_in).err = probe_errcode.ok ↔
        (probe_main env probe_in).ret.isSome = true) ∧
      ((probe_main env probe_in).ret = none ∨
        (probe_main env probe_in).ret =
          some (probe_expected_items env probe_in)) := by
  intro env probe_in
  rcases env with ⟨m, lf, uf, cnt, items⟩
  rcases probe_in with ⟨p, f, b⟩
  cases m <;> cases lf <;> cases uf <;> cases p <;> cases f <;>
    simp [probe_main, probe_expected_items]

/-- C9: with a valid mutex, an input object lacking its path entity or
its filename entity makes probe_main return NULL, set the error code to
PROBE_ENOELM, and release exactly the entities it had obtained. -/
theorem missing_entity_gives_enoelm
    (env : probe_env) (probe_in : probe_obj)
    (hm : env.mutex = mutex_arg.file_probe_mutex)
    (h : probe_in.path = none ∨ probe_in.filename = none) :
    (probe_main env probe_in).ret = none ∧
      (probe_main env probe_in).err = probe_errcode.PROBE_ENOELM ∧
      (probe_main env probe_in).freed = obtained_entities probe_in := by
  rcases probe_in with ⟨p, f, b⟩
  rcases h with h | h
  · subst h
    simp [probe_main, hm]
  · subst h
    cases p <;> simp [probe_main, hm]

/-- The probe environment of the C9 witness: a healthy mutex. -/
def c9_env : probe_env := ⟨.file_probe_mutex, false, false, 0, []⟩

/-- The probe input of the C9 witness: no path entity. -/
def c9_obj : probe_obj := ⟨none, some "passwd", none⟩

/-- Witness for C9 at a concrete malformed input. -/
theorem missing_entity_gives_enoelm_witness :
    (c9_env.mutex = mutex_arg.file_probe_mutex ∧ c9_obj.path = none) ∧
      ((probe_main c9_env c9_obj).ret = none ∧
        (probe_main c9_env c9_obj).err = probe_errcode.PROBE_ENOELM ∧
        (probe_main c9_env c9_obj).freed = obtained_entities c9_obj) :=
  ⟨⟨rfl, rfl⟩, missing_entity_gives_enoelm c9_env c9_obj rfl (Or.inl rfl)⟩

/-- C10: with a valid mutex and a well-formed input, a negative
find_files count is not escalated: probe_main sets the error code to 0
and returns an item list holding the single file_item whose status is
OVAL_STATUS_ERROR. -/
theorem find_files_error_absorbed_into_error_item
    (env : probe_env) (probe_in : probe_obj) (p f : String)
    (hm : env.mutex = mutex_arg.file_probe_mutex)
    (hl : env.lock_fails = false) (hu : env.unlock_fails = false)
    (hp : probe_in.path = some p) (hf : probe_in.filename = some f)
    (hcnt : env.find_files_ret < 0) :
    (probe_main env probe_in).err = probe_errcode.ok ∧
      (probe_main env probe_in).ret = some [file_error_item p] := by
  rcases probe_in with ⟨po, fo, b⟩
  cases hp
  cases hf
  simp [probe_main, hm, hl, hu, hcnt]

/-- The probe environment of the C10 witness: healthy mutex, find_files
reports the error count -1. -/
def c10_env : probe_env := ⟨.file_probe_mutex, false, false, -1, []⟩

/-- The probe input of the C10 witness: both required entities
present. -/
def c10_obj : probe_obj := ⟨some "/etc", some "passwd", none⟩

/-- Witness for C10 at a concrete failing find_files run. -/
theorem find_files_error_absorbed_witness :
    (c10_env.find_files_ret < 0 ∧ c10_obj.path = some "/etc") ∧
      ((probe_main c10_env c10_obj).err = probe_errcode.ok ∧
        (probe_main c10_env c10_obj).ret = some [file_error_item "/etc"]) :=
  ⟨⟨by decide, rfl⟩,
    find_files_error_absorbed_into_error_item c10_env c10_obj "/etc" "passwd"
      rfl rfl rfl rfl rfl (by decide)⟩
